import Mathlib

/-
Verification development for the CrateHistorian core
(services/core/CrateHistorian/crate_historian/historian.py).

The Python source is shallowly embedded below:

* topic identifiers: `hashlib.md5(topic.lower()).hexdigest()` — MD5 is
  embedded in full (RFC 1321) over byte lists, with 32-bit words as `Nat`
  reduced mod 2^32;
* the in-memory caches (`_topic_id_map`, `_topic_name_map`, `_topic_meta`)
  and the database tables (`topic`, `meta`, one data table per category)
  are embedded as association lists;
* `publish_to_historian` is embedded as a state-transition function with an
  explicit fault schedule for `ConnectionError` (the storage client is an
  external collaborator; a fault index says which storage call, if any,
  raises), reproducing the source's try/except/finally control flow,
  including the fact that the `finally` block reads the local `cursor`
  which is unbound when connection establishment itself failed;
* `query_historian` is embedded as a function from the caches, the
  database and the call arguments to `Except` of a result mapping.
-/

set_option maxRecDepth 100000

/-! ### Python-level scalar values -/

/-- Embedded Python values flowing through the historian: ints, floats and
strings.  Floats are restricted to integral values: no claim under
verification depends on fractional float arithmetic, and IEEE rounding is
out of scope for the embedding. -/
inductive PyVal where
  | int (n : Int)
  | float (n : Int)
  | str (s : String)
deriving DecidableEq

/-- Embedded Python exceptions relevant to the historian paths:
`ConnectionError` (crate client), `TypeError` (`list.append` called with
two arguments), `ValueError` (failed `int()`/`float()` coercion),
`UnboundLocalError`/`NameError` (reading an unassigned local), and a
storage-side error for malformed generated SQL. -/
inductive PyErr where
  | connErr
  | typeErr
  | valueErr
  | nameErr
  | dbErr
deriving DecidableEq

/-! ### MD5 (RFC 1321), as used by `hashlib.md5(...).hexdigest()` -/

/-- Reduce to a 32-bit word. -/
def w32 (n : Nat) : Nat := n % 4294967296

/-- 32-bit left rotation. -/
def rotl (x s : Nat) : Nat := w32 ((x <<< s) ||| (x >>> (32 - s)))

/-- The 64 MD5 round constants `floor(abs(sin(i+1)) * 2^32)`. -/
def md5K : List Nat :=
  [0xd76aa478, 0xe8c7b756, 0x242070db, 0xc1bdceee,
   0xf57c0faf, 0x4787c62a, 0xa8304613, 0xfd469501,
   0x698098d8, 0x8b44f7af, 0xffff5bb1, 0x895cd7be,
   0x6b901122, 0xfd987193, 0xa679438e, 0x49b40821,
   0xf61e2562, 0xc040b340, 0x265e5a51, 0xe9b6c7aa,
   0xd62f105d, 0x02441453, 0xd8a1e681, 0xe7d3fbc8,
   0x21e1cde6, 0xc33707d6, 0xf4d50d87, 0x455a14ed,
   0xa9e3e905, 0xfcefa3f8, 0x676f02d9, 0x8d2a4c8a,
   0xfffa3942, 0x8771f681, 0x6d9d6122, 0xfde5380c,
   0xa4beea44, 0x4bdecfa9, 0xf6bb4b60, 0xbebfbc70,
   0x289b7ec6, 0xeaa127fa, 0xd4ef3085, 0x04881d05,
   0xd9d4d039, 0xe6db99e5, 0x1fa27cf8, 0xc4ac5665,
   0xf4292244, 0x432aff97, 0xab9423a7, 0xfc93a039,
   0x655b59c3, 0x8f0ccc92, 0xffeff47d, 0x85845dd1,
   0x6fa87e4f, 0xfe2ce6e0, 0xa3014314, 0x4e0811a1,
   0xf7537e82, 0xbd3af235, 0x2ad7d2bb, 0xeb86d391]

/-- The 64 MD5 per-round shift amounts. -/
def md5S : List Nat :=
  [7, 12, 17, 22, 7, 12, 17, 22, 7, 12, 17, 22, 7, 12, 17, 22,
   5, 9, 14, 20, 5, 9, 14, 20, 5, 9, 14, 20, 5, 9, 14, 20,
   4, 11, 16, 23, 4, 11, 16, 23, 4, 11, 16, 23, 4, 11, 16, 23,
   6, 10, 15, 21, 6, 10, 15, 21, 6, 10, 15, 21, 6, 10, 15, 21]

/-- Assemble little-endian 32-bit words from a list of bytes. -/
def wordsOf : List Nat → List Nat
  | b0 :: b1 :: b2 :: b3 :: rest =>
      (b0 + 256 * b1 + 65536 * b2 + 16777216 * b3) :: wordsOf rest
  | _ => []

/-- Split a byte list into 64-byte blocks; the fuel argument (any bound on
the number of blocks, each recursive call consumes at least one byte)
keeps the recursion structural so the kernel can evaluate it. -/
def chunks64 : Nat → List Nat → List (List Nat)
  | 0, _ => []
  | _, [] => []
  | fuel + 1, b :: l => ((b :: l).take 64) :: chunks64 fuel ((b :: l).drop 64)

/-- Split a byte list into 64-byte blocks. -/
def toBlocks (l : List Nat) : List (List Nat) := chunks64 l.length l

/-- Eight little-endian bytes of a 64-bit length field. -/
def le8 (n : Nat) : List Nat :=
  (List.range 8).map (fun i => (n / 256 ^ i) % 256)

/-- MD5 padding: append `0x80`, zero-fill to 56 mod 64, then the 64-bit
little-endian bit length. -/
def md5pad (m : List Nat) : List Nat :=
  let z := (120 - ((m.length + 1) % 64)) % 64
  m ++ [128] ++ List.replicate z 0 ++ le8 ((8 * m.length) % 18446744073709551616)

/-- One MD5 round `i` on the running state `(a, b, c, d)` with message
words `M`. -/
def md5Step (M : List Nat) (st : Nat × Nat × Nat × Nat) (i : Nat) :
    Nat × Nat × Nat × Nat :=
  let a := st.1
  let b := st.2.1
  let c := st.2.2.1
  let d := st.2.2.2
  let f :=
    if i < 16 then (b &&& c) ||| ((b ^^^ 4294967295) &&& d)
    else if i < 32 then (d &&& b) ||| ((d ^^^ 4294967295) &&& c)
    else if i < 48 then b ^^^ c ^^^ d
    else c ^^^ (b ||| (d ^^^ 4294967295))
  let g :=
    if i < 16 then i
    else if i < 32 then (5 * i + 1) % 16
    else if i < 48 then (3 * i + 5) % 16
    else (7 * i) % 16
  let t := w32 (a + f + md5K.getD i 0 + M.getD g 0)
  (d, w32 (b + rotl t (md5S.getD i 0)), b, c)

/-- Process one 64-byte block, updating the four chaining words. -/
def md5Block (st : Nat × Nat × Nat × Nat) (blk : List Nat) :
    Nat × Nat × Nat × Nat :=
  let M := wordsOf blk
  let r := (List.range 64).foldl (md5Step M) st
  (w32 (st.1 + r.1), w32 (st.2.1 + r.2.1),
   w32 (st.2.2.1 + r.2.2.1), w32 (st.2.2.2 + r.2.2.2))

/-- MD5 digest of a byte list as four 32-bit words. -/
def md5Digest (msg : List Nat) : Nat × Nat × Nat × Nat :=
  (toBlocks (md5pad msg)).foldl md5Block
    (0x67452301, 0xefcdab89, 0x98badcfe, 0x10325476)

/-- Lowercase hexadecimal digit. -/
def hexDigit : Nat → Char
  | 0 => '0' | 1 => '1' | 2 => '2' | 3 => '3'
  | 4 => '4' | 5 => '5' | 6 => '6' | 7 => '7'
  | 8 => '8' | 9 => '9' | 10 => 'a' | 11 => 'b'
  | 12 => 'c' | 13 => 'd' | 14 => 'e' | _ => 'f'

/-- Two lowercase hex characters of a byte. -/
def byteHex (b : Nat) : List Char := [hexDigit (b / 16), hexDigit (b % 16)]

/-- The four little-endian bytes of a 32-bit word. -/
def wordLEBytes (w : Nat) : List Nat :=
  [w % 256, (w / 256) % 256, (w / 65536) % 256, (w / 16777216) % 256]

/-- Hex digest string of an MD5 state, mirroring `hexdigest()`. -/
def md5hex (msg : List Nat) : String :=
  let d := md5Digest msg
  String.mk ((([d.1, d.2.1, d.2.2.1, d.2.2.2].map wordLEBytes).flatten.map byteHex).flatten)

/-- Bytes of a Python 2 `str`: one byte per character.  The historian's
topic names are ASCII, for which this agrees with the real encoding. -/
def strBytes (s : String) : List Nat := s.data.map (fun c => c.toNat % 256)

/-- Character-wise lowercasing, embedding Python's `str.lower()` (exact on
the ASCII topic names the historian handles). -/
def pyLower (s : String) : String := String.mk (s.data.map Char.toLower)

/-- The topic identifier computed at ingestion time
(`hashlib.md5(topic_lower).hexdigest()` on the case-folded topic name). -/
def topicIdOf (topic : String) : String := md5hex (strBytes (pyLower topic))

/-- Two topic names differ only by letter case: same length and the
characters agree after case folding. -/
def caseVariants (s t : String) : Bool :=
  (s.data.length == t.data.length) &&
  (s.data.zip t.data).all (fun p => p.1.toLower == p.2.toLower)

/-! ### Association lists: Python dicts and database tables -/

/-- Lookup in an association list, embedding Python `dict.get`. -/
def alget {κ α : Type} [DecidableEq κ] : List (κ × α) → κ → Option α
  | [], _ => none
  | (k1, v) :: rest, k => if k1 = k then some v else alget rest k

/-- Update/insert in an association list, embedding Python
`dict[key] = value`. -/
def alset {κ α : Type} [DecidableEq κ] : List (κ × α) → κ → α → List (κ × α)
  | [], k, v => [(k, v)]
  | (k1, v1) :: rest, k, v =>
      if k1 = k then (k1, v) :: rest else (k1, v1) :: alset rest k v

/-- Number of rows stored under a key. -/
def keyCount {κ α : Type} [DecidableEq κ] : List (κ × α) → κ → Nat
  | [], _ => 0
  | r :: rest, k => (if r.1 = k then 1 else 0) + keyCount rest k

/-- A metadata mapping (Python `dict` of string keys and values; the
historian's metadata values are strings such as a type name or a unit). -/
abbrev MetaMap := List (String × String)

/-- Key of a stored data point: (category table, topic_id, formatted ts). -/
abbrev DKey := String × String × String

/-- A stored data-table row. -/
abbrev DRow := DKey × PyVal

/-! ### External collaborators, modelled from the spec -/

/-- Modelled from the spec: `volttron.platform.agent.utils.format_timestamp`
(not under src/) serializes a UTC datetime to its canonical string at
second resolution; timestamps are embedded as integral seconds rendered to
their decimal string. -/
def formatTimestamp (t : Nat) : String := toString t

/-- Modelled from the spec: `utils.parse_timestamp_string` followed by
`isoformat('T')` (not under src/) normalizes an ISO-8601 string; on the
already-canonical timestamp strings of the embedding it is the identity. -/
def parseTs (s : String) : String := s

/-- Modelled from the spec: `zmq.utils.jsonapi.dumps` (not under src/)
serializes a metadata mapping to a JSON string. -/
def jsonDumps (m : MetaMap) : String :=
  "\x7b" ++ String.intercalate ", "
    (m.map (fun p => "\x22" ++ p.1 ++ "\x22: \x22" ++ p.2 ++ "\x22")) ++ "\x7d"

/-- Python 2 `str(...)` of a metadata dict, as compared by the source's
metadata-change test (`repr`-style, order-dependent). -/
def pyRepr (m : MetaMap) : String :=
  "\x7b" ++ String.intercalate ", "
    (m.map (fun p => "\x27" ++ p.1 ++ "\x27: \x27" ++ p.2 ++ "\x27")) ++ "\x7d"

/-- Python `str(...)` of `dict.get`'s result: `"None"` for an absent key,
the string itself otherwise. -/
def pyStrOfOpt : Option String → String
  | none => "None"
  | some s => s

/-! ### Historian state and database -/

/-- The historian's in-memory caches (`self._topic_id_map`,
`self._topic_name_map`, `self._topic_meta`) and the lazily established
storage connection (`self._connection`). -/
structure HState where
  topicIdMap : List (String × String)
  topicNameMap : List (String × String)
  topicMeta : List (String × MetaMap)
  connection : Option Unit
deriving DecidableEq

/-- The storage tables the core touches: `topic(id, name)`,
`meta(topic_id, meta_data)` and the per-category data tables, the latter
keyed by (table, topic_id, ts). -/
structure Database where
  topics : List (String × String)
  meta : List (String × String)
  data : List DRow
deriving DecidableEq

/-- The empty caches right after construction (and after a startup load
over an empty database). -/
def freshState : HState := ⟨[], [], [], none⟩

/-- An empty database. -/
def emptyDB : Database := ⟨[], [], []⟩

/-- One record of a `publish_to_historian` batch. -/
structure HPoint where
  ts : Nat
  source : String
  topic : String
  value : PyVal
  meta : MetaMap
deriving DecidableEq

/-! ### Ingestion pipeline -/

/-- Embedding of the inner function `publish_to_historian.insert_data`:
`INSERT INTO <table> (topic_id, ts, result) VALUES (?, ?, ?) ON DUPLICATE
KEY UPDATE result=result`.  On a duplicate `(topic_id, ts)` key the update
clause reassigns the existing column to itself, so the statement inserts
when the key is absent and leaves the stored row untouched otherwise; it
never fails on a duplicate. -/
def insert_data (rows : List DRow) (table_name topic_id : String) (ts : Nat)
    (data : PyVal) : List DRow :=
  match alget rows (table_name, topic_id, formatTimestamp ts) with
  | some _ => rows
  | none => ((table_name, topic_id, formatTimestamp ts), data) :: rows

/-- Embedding of `int(value)`: identity on ints, truncation on (integral)
floats, decimal parse on strings, failing (`ValueError`) otherwise. -/
def pyIntOf : PyVal → Option PyVal
  | .int n => some (.int n)
  | .float n => some (.int n)
  | .str s => (s.toInt?).map .int

/-- Embedding of `float(value)` (restricted to the integral floats of the
embedding). -/
def pyFloatOf : PyVal → Option PyVal
  | .int n => some (.float n)
  | .float n => some (.float n)
  | .str s => (s.toInt?).map .float

/-- The source's value coercion: if the point's metadata declares `type`
`integer` or `float`, coerce the raw value accordingly; a failed coercion
is a per-point `ValueError`. -/
def coerceValue (meta : MetaMap) (v : PyVal) : Option PyVal :=
  match alget meta "type" with
  | some "integer" => pyIntOf v
  | some "float" => pyFloatOf v
  | _ => some v

/-- `INSERT INTO topic(id, name) VALUES (?, ?) ON DUPLICATE KEY UPDATE
name=name`: insert-if-absent on the topic table. -/
def topicInsertKeep (topics : List (String × String)) (id name : String) :
    List (String × String) :=
  match alget topics id with
  | some _ => topics
  | none => (id, name) :: topics

/-- `UPDATE topic SET name = ? WHERE id = ?`. -/
def topicUpdateName (topics : List (String × String)) (id name : String) :
    List (String × String) :=
  match alget topics id with
  | some _ => alset topics id name
  | none => topics

/-- `INSERT INTO meta(topic_id, meta_data) VALUES (?, ?) ON DUPLICATE KEY
UPDATE meta_data=meta_data`: insert-if-absent on the meta table (on a
duplicate key the stored blob is kept, not replaced). -/
def metaInsertKeep (meta : List (String × String)) (topic_id blob : String) :
    List (String × String) :=
  match alget meta topic_id with
  | some _ => meta
  | none => (topic_id, blob) :: meta

/-- Running context of one `publish_to_historian` call: caches, database,
the index of the next storage call (for the fault schedule) and the number
of metadata INSERTs issued so far. -/
structure Ctx where
  hs : HState
  db : Database
  opIdx : Nat
  metaWrites : Nat
deriving DecidableEq

/-- Outcome of a processing step: normal continuation, a raised
`ConnectionError`, or a raised `ValueError`, each carrying the state at
the raise point. -/
inductive StepRes where
  | ok (c : Ctx)
  | connErr (c : Ctx)
  | valErr (c : Ctx)
deriving DecidableEq

/-- One `cursor.execute` under the fault schedule: raises `ConnectionError`
when the schedule names this call's index, otherwise applies the write. -/
def runExec (failAt : Option Nat) (c : Ctx) (write : Ctx → Ctx) : StepRes :=
  if failAt = some c.opIdx then .connErr c
  else .ok (write { c with opIdx := c.opIdx + 1 })

/-- Per-point body of the `for x in to_publish_list` loop of
`publish_to_historian`, in source order: category aliasing, value
coercion, topic registration/rename, idempotent data upsert, and the
metadata step with the source's change test
`old_meta.get(topic_id) is None or str(old_meta.get(topic_id)) != str(meta)`. -/
def processPoint (failAt : Option Nat) (x : HPoint) (c : Ctx) : StepRes :=
  let source := if x.source = "scrape" then "device"
                else if x.source = "log" then "datalogger" else x.source
  match coerceValue x.meta x.value with
  | none => .valErr c
  | some value =>
    let topic_lower := pyLower x.topic
    let topic_id := topicIdOf x.topic
    let step1 : StepRes :=
      match alget c.hs.topicNameMap topic_lower with
      | none =>
          runExec failAt c (fun c1 =>
            { c1 with
              db := { c1.db with topics := topicInsertKeep c1.db.topics topic_id x.topic }
              hs := { c1.hs with topicNameMap := alset c1.hs.topicNameMap topic_lower x.topic } })
      | some db_topic_name =>
          if db_topic_name ≠ x.topic then
            runExec failAt c (fun c1 =>
              { c1 with
                db := { c1.db with topics := topicUpdateName c1.db.topics topic_id x.topic }
                hs := { c1.hs with topicNameMap := alset c1.hs.topicNameMap topic_lower x.topic } })
          else .ok c
    match step1 with
    | .ok c1 =>
        match runExec failAt c1 (fun c2 =>
          { c2 with db := { c2.db with data := insert_data c2.db.data source topic_id x.ts value } }) with
        | .ok c2 =>
            let old_meta := (alget c2.hs.topicMeta topic_id).getD []
            if alget old_meta topic_id = none ∨
               pyStrOfOpt (alget old_meta topic_id) ≠ pyRepr x.meta then
              match runExec failAt c2 (fun c3 =>
                { c3 with
                  db := { c3.db with meta := metaInsertKeep c3.db.meta topic_id (jsonDumps x.meta) }
                  hs := { c3.hs with topicMeta := alset c3.hs.topicMeta topic_id x.meta }
                  metaWrites := c3.metaWrites + 1 }) with
              | r => r
            else .ok c2
        | r => r
    | r => r

/-- The batch loop: process points in order, stopping at the first raised
exception. -/
def processBatch (failAt : Option Nat) : List HPoint → Ctx → StepRes
  | [], c => .ok c
  | x :: rest, c =>
      match processPoint failAt x c with
      | .ok c1 => processBatch failAt rest c1
      | r => r

/-- Embedding of `get_connection`: lazily establish the storage connection
(`client.connect`) when none is cached; `connectFails` injects a
`ConnectionError` from the external client. -/
def get_connection (connectFails : Bool) (hs : HState) : Option HState :=
  if hs.connection = none then
    if connectFails then none else some { hs with connection := some () }
  else some hs

/-- The observable outcome of one `publish_to_historian` call. -/
structure PubResult where
  hs : HState
  db : Database
  acked : Bool
  raised : Option PyErr
  cursorBound : Bool
  cursorClosed : Bool
  metaWrites : Nat
  connFailed : Bool
deriving DecidableEq

/-- Embedding of `publish_to_historian` including its try/except/finally
wiring.  `failAt` is the fault schedule: the index of the storage call
(connection establishment first, when needed, then each `cursor.execute`)
that raises `ConnectionError`, if any.  The `finally` block executes
`if cursor is not None: cursor.close()`; when connection establishment
itself raised, the local `cursor` was never assigned, so that read raises
`UnboundLocalError` (embedded as `PyErr.nameErr`), which replaces the
handled exception and propagates. -/
def publish_to_historian (failAt : Option Nat) (batch : List HPoint)
    (hs : HState) (db : Database) : PubResult :=
  match get_connection (hs.connection = none ∧ failAt = some 0 : Bool) hs with
  | none =>
      { hs := { hs with connection := none }, db := db, acked := false
        raised := some .nameErr, cursorBound := false, cursorClosed := false
        metaWrites := 0, connFailed := true }
  | some hs1 =>
      match processBatch failAt batch
          ⟨hs1, db, if hs.connection = none then 1 else 0, 0⟩ with
      | .ok c =>
          { hs := c.hs, db := c.db, acked := true, raised := none
            cursorBound := true, cursorClosed := true
            metaWrites := c.metaWrites, connFailed := false }
      | .connErr c =>
          { hs := { c.hs with connection := none }, db := c.db, acked := false
            raised := none, cursorBound := true, cursorClosed := true
            metaWrites := c.metaWrites, connFailed := true }
      | .valErr c =>
          { hs := c.hs, db := c.db, acked := false, raised := some .valueErr
            cursorBound := true, cursorClosed := true
            metaWrites := c.metaWrites, connFailed := false }

/-! ### Startup loads -/

/-- Embedding of `_load_topic_map`: `SELECT _id, name, lower(name) FROM
topic`, filling `_topic_id_map[lower] = id` and
`_topic_name_map[lower] = name` (`_id` is the storage engine's key column,
equal to the single primary key `id`). -/
def load_topic_map (hs : HState) (db : Database) : HState :=
  db.topics.foldl
    (fun h row =>
      { h with
        topicIdMap := alset h.topicIdMap (pyLower row.2) row.1
        topicNameMap := alset h.topicNameMap (pyLower row.2) row.2 }) hs

/-- Modelled from the spec: `jsonapi.loads` (not under src/) deserializes
a stored metadata blob; the embedding keeps blobs as produced by
`jsonDumps` and recovers nothing finer than an opaque single-entry map, so
the load stores the blob under the key `"blob"`. -/
def jsonLoads (s : String) : MetaMap := [("blob", s)]

/-- Embedding of `_load_meta_map`: `SELECT topic_id, meta_data FROM meta`,
filling `_topic_meta[topic_id] = jsonapi.loads(meta_data)`. -/
def load_meta_map (hs : HState) (db : Database) : HState :=
  db.meta.foldl
    (fun h row => { h with topicMeta := alset h.topicMeta row.1 (jsonLoads row.2) }) hs

/-! ### Query engine -/

/-- The mapping returned by `query_historian`:
`dict(values=..., metadata=...)`. -/
structure QResult where
  values : List (String × PyVal)
  metadata : MetaMap
deriving DecidableEq

/-- Splitting a character list on `'/'`, accumulating the current
segment. -/
def splitSlashAux : List Char → List Char → List String
  | [], acc => [String.mk acc.reverse]
  | c :: cs, acc =>
      if c = '/' then String.mk acc.reverse :: splitSlashAux cs []
      else splitSlashAux cs (c :: acc)

/-- Embedding of Python `topic.split('/')`: always at least one segment. -/
def pySplitSlash (s : String) : List String := splitSlashAux s.data []

/-- Embedding of the Python slice `s[n:]` (by characters; exact for the
historian's ASCII topic names). -/
def pyDrop (s : String) (n : Nat) : String := String.mk (s.data.drop n)

/-- `topic.split('/')[0]` — the leading path segment naming the category
table. -/
def tableNameOf (topic : String) : String := (pySplitSlash topic).headD ""

/-- The recognized category tables. -/
def validTables : List String := ["analysis", "device", "record", "datalogger"]

/-- `topic[len(table_name)+1:]` for the prefix-stripped categories,
the unchanged topic otherwise. -/
def strippedTopic (topic : String) : String :=
  let tn := tableNameOf topic
  if tn = "analysis" ∨ tn = "device" then pyDrop topic (tn.length + 1) else topic

/-- Lexicographic comparison of character lists by code point. -/
def charListLt : List Char → List Char → Bool
  | [], [] => false
  | [], _ :: _ => true
  | _ :: _, [] => false
  | a :: as, b :: bs =>
      if a.toNat < b.toNat then true
      else if b.toNat < a.toNat then false
      else charListLt as bs

/-- Timestamp comparison used to embed `ORDER BY ts` (lexicographic, which
is chronological on the canonical timestamp strings). -/
def tsLeB (a b : String) : Bool := ! charListLt b.data a.data

/-- Ordered insertion for the embedded `ORDER BY ts ASC|DESC`. -/
def insRow (asc : Bool) (r : DRow) : List DRow → List DRow
  | [] => [r]
  | y :: ys =>
      if (if asc then tsLeB r.1.2.2 y.1.2.2 else tsLeB y.1.2.2 r.1.2.2) then
        r :: y :: ys
      else y :: insRow asc r ys

/-- Sort data rows by their timestamp column. -/
def sortRows (asc : Bool) : List DRow → List DRow
  | [] => []
  | r :: rs => insRow asc r (sortRows asc rs)

/-- Execution of the generated data scan (`SELECT topic_id, ts, result
FROM <table> WHERE topic_id = ? ORDER BY ts ASC|DESC LIMIT n [offset]`):
filter the category table by topic id — the source adds no time
constraint on this path — order by timestamp, apply offset and limit, and
project each row to `(ts, result)` (dropping `row[0]`, the id column). -/
def execDataQuery (db : Database) (table_name topic_id : String) (asc : Bool)
    (skip : Nat) (cnt : Int) : List (String × PyVal) :=
  let rows := db.data.filter (fun r => r.1.1 == table_name && r.1.2.1 == topic_id)
  let sorted := sortRows asc rows
  ((if skip > 0 then sorted.drop skip else sorted).take cnt.toNat).map
    (fun r => (r.1.2.2, r.2))

/-- Embedding of `query_historian`.  Faithful to the source's control flow:

* unrecognized leading category or a topic missing from `_topic_id_map`
  returns `dict(values=[], metadata={})` before any storage access;
* `start_time` is always computed in the source
  (`parse_timestamp_string(start)`, or `get_aware_utc_now()` — the `now`
  argument) but is only ever consumed on the both-bounds path, so the
  embedding elides the dead pure computation;
* when both `start` and `end` are given, the source executes
  `values.append(start_time, end_time)` — `list.append` takes exactly one
  argument, so the call raises `TypeError` before any query runs (it has
  also just overwritten the WHERE clause, dropping the topic filter);
* otherwise no time constraint at all is placed on the scan;
* `failConn` injects a `ConnectionError` from `get_connection`;
* when `count` is absent or non-positive, `count > 0` is false (Python 2
  comparison with `None`) and the `{limit}` placeholder is formatted with
  the integer default `20`, leaving a bare `20` token in the SQL text; the
  storage server rejects that malformed statement (`PyErr.dbErr`);
* with a positive count the scan runs (`execDataQuery`);
* the returned metadata is the literal `{}` of the source. -/
def query_historian (hs : HState) (db : Database) (topic : String)
    (start endT : Option String) (skip : Nat) (count : Option Int)
    (order : String) (now : String) (failConn : Bool) :
    Except PyErr QResult :=
  if tableNameOf topic ∈ validTables then
    match alget hs.topicIdMap (strippedTopic topic) with
    | none => .ok ⟨[], []⟩
    | some topic_id =>
      if start.isSome && endT.isSome then
        .error .typeErr
      else if failConn then .error .connErr
      else
        match count with
        | none => .error .dbErr
        | some cnt =>
          if cnt > 0 then
            .ok ⟨execDataQuery db (tableNameOf topic) topic_id
                  (order = "FIRST_TO_LAST") skip cnt, []⟩
          else .error .dbErr
  else .ok ⟨[], []⟩

/-! ### Sanity checks of the MD5 embedding against RFC 1321 test vectors -/

theorem md5_vector_empty : md5hex (strBytes "") = "d41d8cd98f00b204e9800998ecf8427e" := by decide

theorem md5_vector_abc : md5hex (strBytes "abc") = "900150983cd24fb0d6963f7d28e17f72" := by decide

/-! ### Association-list counting lemmas -/

theorem alget_none_keyCount {κ α : Type} [DecidableEq κ] :
    ∀ (rows : List (κ × α)) (k : κ), alget rows k = none → keyCount rows k = 0 := by
  intro rows k
  induction rows with
  | nil => intro _; rfl
  | cons r rest ih =>
      intro h
      obtain ⟨k1, v⟩ := r
      unfold alget at h
      by_cases hk : k1 = k
      · rw [if_pos hk] at h
        exact Option.noConfusion h
      · rw [if_neg hk] at h
        unfold keyCount
        simp [hk, ih h]

theorem alget_some_keyCount {κ α : Type} [DecidableEq κ] :
    ∀ (rows : List (κ × α)) (k : κ) (w : α), alget rows k = some w →
      1 ≤ keyCount rows k := by
  intro rows k
  induction rows with
  | nil => intro w h; exact Option.noConfusion h
  | cons r rest ih =>
      intro w h
      obtain ⟨k1, v⟩ := r
      unfold alget at h
      unfold keyCount
      by_cases hk : k1 = k
      · simp [hk]
      · rw [if_neg hk] at h
        have h1 := ih w h
        simp [hk]
        omega

theorem alget_cons_self {κ α : Type} [DecidableEq κ] (rows : List (κ × α))
    (k : κ) (v : α) : alget ((k, v) :: rows) k = some v := by
  unfold alget
  rw [if_pos rfl]

/-! ### Behaviour of the data-point upsert -/

theorem insert_data_present {rows : List DRow} {table_name topic_id : String}
    {ts : Nat} {v w : PyVal}
    (h : alget rows (table_name, topic_id, formatTimestamp ts) = some w) :
    insert_data rows table_name topic_id ts v = rows := by
  unfold insert_data
  rw [h]

theorem insert_data_absent {rows : List DRow} {table_name topic_id : String}
    {ts : Nat} {v : PyVal}
    (h : alget rows (table_name, topic_id, formatTimestamp ts) = none) :
    insert_data rows table_name topic_id ts v =
      ((table_name, topic_id, formatTimestamp ts), v) :: rows := by
  unfold insert_data
  rw [h]

/-- C1: for every category table, topic id and timestamp, writing a data
point whose `(topic_id, timestamp)` key already exists in that category
table is a no-op, and re-ingesting the identical point with the same value
twice leaves exactly one stored row for that key with the stored value
unchanged; the upsert is a total function (`ON DUPLICATE KEY UPDATE
result=result`), so no error is raised. -/
theorem c1_duplicate_point_upsert_noop
    (rows : List DRow) (table_name topic_id : String) (ts : Nat) (v : PyVal)
    (hinv : keyCount rows (table_name, topic_id, formatTimestamp ts) ≤ 1) :
    (∀ w, alget rows (table_name, topic_id, formatTimestamp ts) = some w →
      insert_data rows table_name topic_id ts v = rows)
    ∧ insert_data (insert_data rows table_name topic_id ts v) table_name topic_id ts v
        = insert_data rows table_name topic_id ts v
    ∧ keyCount (insert_data (insert_data rows table_name topic_id ts v)
          table_name topic_id ts v) (table_name, topic_id, formatTimestamp ts) = 1
    ∧ alget (insert_data rows table_name topic_id ts v)
          (table_name, topic_id, formatTimestamp ts)
        = some ((alget rows (table_name, topic_id, formatTimestamp ts)).getD v) := by
  refine ⟨fun w1 hw1 => insert_data_present hw1, ?_⟩
  cases h : alget rows (table_name, topic_id, formatTimestamp ts) with
  | some w =>
      refine ⟨?_, ?_, ?_⟩
      · rw [insert_data_present h, insert_data_present h]
      · rw [insert_data_present h, insert_data_present h]
        have := alget_some_keyCount rows (table_name, topic_id, formatTimestamp ts) w h
        omega
      · rw [insert_data_present h, h]
        rfl
  | none =>
      have habs := @insert_data_absent rows table_name topic_id ts v h
      have hself := alget_cons_self rows (table_name, topic_id, formatTimestamp ts) v
      refine ⟨?_, ?_, ?_⟩
      · rw [habs, insert_data_present hself]
      · rw [habs, insert_data_present hself]
        have h0 := alget_none_keyCount rows (table_name, topic_id, formatTimestamp ts) h
        unfold keyCount
        simp [h0]
      · rw [habs, hself]
        rfl

/-- Witness for C1 at a concrete input. -/
theorem c1_duplicate_point_upsert_noop_witness :
    keyCount ([] : List DRow) ("device", "x", formatTimestamp 5) ≤ 1
    ∧ keyCount (insert_data (insert_data [] "device" "x" 5 (.int 1))
        "device" "x" 5 (.int 1)) ("device", "x", formatTimestamp 5) = 1 :=
  ⟨by decide,
   (c1_duplicate_point_upsert_noop [] "device" "x" 5 (.int 1) (by decide)).2.2.1⟩

/-! ### The topic identifier as a pure function of the case-folded name -/

theorem mapLower_of_zip :
    ∀ (l1 l2 : List Char), l1.length = l2.length →
      (∀ p ∈ l1.zip l2, p.1.toLower = p.2.toLower) →
      l1.map Char.toLower = l2.map Char.toLower := by
  intro l1
  induction l1 with
  | nil =>
      intro l2 hlen _
      cases l2 with
      | nil => rfl
      | cons b bs => exact absurd hlen (by simp)
  | cons a as ih =>
      intro l2 hlen hall
      cases l2 with
      | nil => exact absurd hlen (by simp)
      | cons b bs =>
          have hz : (a :: as).zip (b :: bs) = (a, b) :: as.zip bs := rfl
          have h1 : a.toLower = b.toLower :=
            hall (a, b) (by rw [hz]; exact List.mem_cons_self _ _)
          have h2 : ∀ p ∈ as.zip bs, p.1.toLower = p.2.toLower :=
            fun p hp => hall p (by rw [hz]; exact List.mem_cons_of_mem _ hp)
          have hlen2 : as.length = bs.length := by simpa using hlen
          simp only [List.map_cons, h1, ih bs hlen2 h2]

/-- C2: the topic identifier is a pure, deterministic function of the
case-folded topic name (`md5(topic.lower()).hexdigest()`): any two topic
names differing only by letter case get the same identifier, and the
identifier is computed from the name alone — no state, database or
connection argument occurs, so the same name yields the same id across
restarts without a database round trip. -/
theorem c2_topic_id_function_of_case_folded_name (s t : String)
    (h : caseVariants s t = true) :
    topicIdOf s = topicIdOf t ∧ topicIdOf s = md5hex (strBytes (pyLower s)) := by
  unfold caseVariants at h
  rw [Bool.and_eq_true] at h
  obtain ⟨hlen, hall⟩ := h
  have hlen1 : s.data.length = t.data.length := by simpa using hlen
  have hall1 : ∀ p ∈ s.data.zip t.data, p.1.toLower = p.2.toLower := by
    intro p hp
    exact eq_of_beq (List.all_eq_true.mp hall p hp)
  have hpl : pyLower s = pyLower t :=
    congrArg String.mk (mapLower_of_zip s.data t.data hlen1 hall1)
  constructor
  · unfold topicIdOf
    rw [hpl]
  · rfl

/-- Witness for C2 at a concrete pair of case variants. -/
theorem c2_topic_id_function_of_case_folded_name_witness :
    caseVariants "Device/AHU1/Temp" "device/ahu1/temp" = true
    ∧ topicIdOf "Device/AHU1/Temp" = topicIdOf "device/ahu1/temp" :=
  ⟨by decide,
   (c2_topic_id_function_of_case_folded_name "Device/AHU1/Temp" "device/ahu1/temp"
     (by decide)).1⟩

/-! ### Metadata change detection (C3) -/

/-- C3 (code bug): the source's metadata-change test is
`old_meta.get(topic_id) is None or str(old_meta.get(topic_id)) != str(meta)`,
which looks the topic id up as a key INSIDE the cached metadata mapping
instead of comparing the mapping itself, so it is true for every ordinary
metadata mapping and a metadata write is issued on every ingested point.
Concretely: after a first ingest of the point with metadata
`{'units': 'F'}` the cache holds exactly that mapping for the topic id,
yet re-ingesting the identical point issues one further metadata write
(`metaWrites = 1` in the second run, where the claim requires 0). -/
theorem c3_metadata_write_every_point :
    (publish_to_historian none [⟨0, "device", "a", .int 1, [("units", "F")]⟩]
      freshState emptyDB).metaWrites = 1
    ∧ alget (publish_to_historian none [⟨0, "device", "a", .int 1, [("units", "F")]⟩]
        freshState emptyDB).hs.topicMeta (topicIdOf "a") = some [("units", "F")]
    ∧ (publish_to_historian none [⟨0, "device", "a", .int 1, [("units", "F")]⟩]
        (publish_to_historian none [⟨0, "device", "a", .int 1, [("units", "F")]⟩]
          freshState emptyDB).hs
        (publish_to_historian none [⟨0, "device", "a", .int 1, [("units", "F")]⟩]
          freshState emptyDB).db).metaWrites = 1 :=
  ⟨by decide, by decide, by decide⟩

/-! ### Registry state shared between ingestion and query (C4) -/

/-- C4 (code bug): `publish_to_historian` updates `_topic_name_map` but
never `_topic_id_map`, while `query_historian` resolves topics through
`_topic_id_map` only.  Ingesting the spec's scenario point for a topic
first seen after startup stores exactly one data row under the computed
topic id, yet the subsequent query for `device/building/ahu1/temp`
resolves against the untouched (empty) `_topic_id_map` and returns
`{values: [], metadata: {}}` instead of the stored point. -/
theorem c4_new_topic_invisible_to_query :
    keyCount (publish_to_historian none
        [⟨100, "device", "building/ahu1/temp", .int 72, [("type", "float")]⟩]
        freshState emptyDB).db.data
      ("device", topicIdOf "building/ahu1/temp", formatTimestamp 100) = 1
    ∧ (publish_to_historian none
        [⟨100, "device", "building/ahu1/temp", .int 72, [("type", "float")]⟩]
        freshState emptyDB).hs.topicIdMap = []
    ∧ query_historian
        (publish_to_historian none
          [⟨100, "device", "building/ahu1/temp", .int 72, [("type", "float")]⟩]
          freshState emptyDB).hs
        (publish_to_historian none
          [⟨100, "device", "building/ahu1/temp", .int 72, [("type", "float")]⟩]
          freshState emptyDB).db
        "device/building/ahu1/temp" none none 0 (some 1) "FIRST_TO_LAST"
        "2016-01-01T00:00:00" false = .ok ⟨[], []⟩ :=
  ⟨by decide, by decide, rfl⟩

/-! ### Batch disposition and connection loss (C5) -/

/-- C5 counterexample: a `ConnectionError` raised while establishing the
connection at the start of the call (`get_connection`) is NOT silent to
the caller — the `finally` block reads the never-assigned local `cursor`
and raises `UnboundLocalError` — refuting the claim that on connection
loss the failure is silent apart from the missing acknowledgment. -/
theorem c5_establishment_loss_not_silent :
    (publish_to_historian (some 0) [⟨0, "device", "c", .int 1, []⟩]
      freshState emptyDB).connFailed = true
    ∧ (publish_to_historian (some 0) [⟨0, "device", "c", .int 1, []⟩]
        freshState emptyDB).acked = false
    ∧ (publish_to_historian (some 0) [⟨0, "device", "c", .int 1, []⟩]
        freshState emptyDB).raised = some .nameErr :=
  ⟨by decide, by decide, by decide⟩

/-- C5 (amended): the batch is acknowledged exactly when the whole batch
completes with no exception (in particular no storage connection loss);
on any connection loss no acknowledgment is issued and the cached
connection handle is discarded so the next call re-establishes it; and
the failure is silent to the caller precisely when the loss occurred
after the cursor was obtained, while a loss during connection
establishment propagates an `UnboundLocalError` from the cleanup. -/
theorem c5_batch_disposition (failAt : Option Nat) (batch : List HPoint)
    (hs : HState) (db : Database) :
    ((publish_to_historian failAt batch hs db).acked = true ↔
      ((publish_to_historian failAt batch hs db).raised = none
       ∧ (publish_to_historian failAt batch hs db).connFailed = false))
    ∧ ((publish_to_historian failAt batch hs db).connFailed = true →
        (publish_to_historian failAt batch hs db).acked = false
        ∧ (publish_to_historian failAt batch hs db).hs.connection = none
        ∧ ((publish_to_historian failAt batch hs db).cursorBound = true →
            (publish_to_historian failAt batch hs db).raised = none)
        ∧ ((publish_to_historian failAt batch hs db).cursorBound = false →
            (publish_to_historian failAt batch hs db).raised = some .nameErr)) := by
  unfold publish_to_historian
  cases hgc : get_connection (decide (hs.connection = none ∧ failAt = some 0)) hs with
  | none => simp
  | some hs1 =>
      cases hpb : processBatch failAt batch
          ⟨hs1, db, if hs.connection = none then 1 else 0, 0⟩ <;>
        simp [hpb]

/-- Witness for C5 at a concrete mid-batch connection loss (the cursor was
bound, so the failure is silent and the connection is dropped). -/
theorem c5_batch_disposition_witness :
    (publish_to_historian (some 1) [⟨0, "device", "a", .int 1, []⟩]
      freshState emptyDB).connFailed = true
    ∧ (publish_to_historian (some 1) [⟨0, "device", "a", .int 1, []⟩]
        freshState emptyDB).raised = none
    ∧ (publish_to_historian (some 1) [⟨0, "device", "a", .int 1, []⟩]
        freshState emptyDB).hs.connection = none :=
  ⟨by decide,
   ((c5_batch_disposition (some 1) [⟨0, "device", "a", .int 1, []⟩]
       freshState emptyDB).2 (by decide)).2.2.1 (by decide),
   ((c5_batch_disposition (some 1) [⟨0, "device", "a", .int 1, []⟩]
       freshState emptyDB).2 (by decide)).2.1⟩

/-! ### Time-range predicate construction (C6) -/

/-- C6 (code bug): the range predicate is never built as claimed.  With
both bounds given, the source overwrites the WHERE clause and then calls
`values.append(start_time, end_time)`, raising `TypeError`.  With only a
start bound given, the bound is parsed but never attached to the query, so
a stored row timestamped BEFORE the requested start is still returned.
(The computed "now" default for a missing start is likewise never used.) -/
theorem c6_range_predicate_not_built :
    query_historian ⟨[("t6", "id6")], [("t6", "t6")], [], some ()⟩
      ⟨[], [], [(("device", "id6", "5"), .int 9)]⟩
      "device/t6" (some "5") (some "7") 0 (some 5) "FIRST_TO_LAST" "8" false
      = .error .typeErr
    ∧ query_historian ⟨[("t6", "id6")], [("t6", "t6")], [], some ()⟩
        ⟨[], [], [(("device", "id6", "5"), .int 9)]⟩
        "device/t6" (some "7") none 0 (some 5) "FIRST_TO_LAST" "8" false
        = .ok ⟨[("5", .int 9)], []⟩ :=
  ⟨rfl, rfl⟩

/-! ### Cursor release on every exit path (C7) -/

/-- C7 (code bug): on normal completion the cursor is closed by the
`finally` block, but when connection establishment fails at the start of
the call the local `cursor` was never assigned, so the `finally` block's
`if cursor is not None` read itself raises `UnboundLocalError` — an exit
path on which the cleanup fails. -/
theorem c7_cursor_cleanup_fails_on_establishment_loss :
    (publish_to_historian none [⟨0, "device", "b", .int 2, []⟩]
      freshState emptyDB).cursorClosed = true
    ∧ (publish_to_historian (some 0)
        [⟨0, "device", "b", .int 2, []⟩, ⟨1, "device", "b2", .int 3, []⟩]
        freshState emptyDB).cursorBound = false
    ∧ (publish_to_historian (some 0)
        [⟨0, "device", "b", .int 2, []⟩, ⟨1, "device", "b2", .int 3, []⟩]
        freshState emptyDB).cursorClosed = false
    ∧ (publish_to_historian (some 0)
        [⟨0, "device", "b", .int 2, []⟩, ⟨1, "device", "b2", .int 3, []⟩]
        freshState emptyDB).raised = some .nameErr :=
  ⟨by decide, by decide, by decide, by decide⟩

/-! ### Metadata in query responses (C8) -/

/-- C8 counterexample: with metadata cached for the resolved topic id, the
query still returns an empty metadata mapping — the source's return is the
literal `dict(values=results, metadata={})`, never consulting
`_topic_meta` — so the returned metadata differs from the cache's
last-known metadata. -/
theorem c8_cached_metadata_not_returned :
    alget (⟨[("t3", "id3")], [("t3", "t3")], [("id3", [("type", "float")])],
        some ()⟩ : HState).topicMeta "id3" = some [("type", "float")]
    ∧ query_historian
        ⟨[("t3", "id3")], [("t3", "t3")], [("id3", [("type", "float")])], some ()⟩
        ⟨[], [], [(("device", "id3", "7"), .int 1)]⟩
        "device/t3" none none 0 (some 20) "FIRST_TO_LAST" "9" false
        = .ok ⟨[("7", .int 1)], []⟩
    ∧ ([] : MetaMap) ≠ [("type", "float")] :=
  ⟨by decide, rfl, by decide⟩

/-- C8 (amended): the metadata field of every successful query response is
the empty mapping — regardless of what `MetadataCache` holds for the
resolved topic id — and in particular absent cached metadata yields an
empty mapping rather than an error. -/
theorem c8_query_metadata_always_empty (hs : HState) (db : Database)
    (topic : String) (start endT : Option String) (skip : Nat)
    (count : Option Int) (order now : String) (failConn : Bool) (r : QResult)
    (h : query_historian hs db topic start endT skip count order now failConn
          = .ok r) :
    r.metadata = [] := by
  unfold query_historian at h
  repeat' split at h
  all_goals
    first
      | exact Except.noConfusion h
      | (injection h with h1; rw [← h1])

/-- Witness for C8 (amended) at a concrete query with cached metadata. -/
theorem c8_query_metadata_always_empty_witness :
    query_historian
      ⟨[("t4", "id4")], [("t4", "t4")], [("id4", [("u", "v")])], some ()⟩
      ⟨[], [], [(("device", "id4", "3"), .int 2)]⟩
      "device/t4" none none 0 (some 20) "FIRST_TO_LAST" "9" false
      = .ok ⟨[("3", .int 2)], []⟩
    ∧ (⟨[("3", .int 2)], []⟩ : QResult).metadata = [] :=
  ⟨rfl,
   c8_query_metadata_always_empty
     ⟨[("t4", "id4")], [("t4", "t4")], [("id4", [("u", "v")])], some ()⟩
     ⟨[], [], [(("device", "id4", "3"), .int 2)]⟩
     "device/t4" none none 0 (some 20) "FIRST_TO_LAST" "9" false
     ⟨[("3", .int 2)], []⟩ rfl⟩

/-! ### Degenerate time window (C9) -/

/-- C9 (code bug): a query on a registered topic with `start = end` (both
bounds given and equal, no matching data) does not return an empty values
list — both bounds being present sends the source into
`values.append(start_time, end_time)`, which raises `TypeError`. -/
theorem c9_start_eq_end_raises :
    query_historian ⟨[("t9", "id9")], [("t9", "t9")], [], some ()⟩ emptyDB
      "device/t9" (some "5") (some "5") 0 (some 20) "FIRST_TO_LAST" "8" false
      = .error .typeErr := rfl

/-! ### Unknown category / unresolved topic (C10) -/

/-- C10: a query whose topic has an unrecognized leading category, or
whose (prefix-stripped) name is not registered in the in-memory topic
map, returns the well-defined empty result `{values: [], metadata: {}}`
and raises no exception, for every state, database and argument
combination (including an injected connection fault, which those paths
never reach). -/
theorem c10_invalid_topic_empty_result (hs : HState) (db : Database)
    (topic : String) (start endT : Option String) (skip : Nat)
    (count : Option Int) (order now : String) (failConn : Bool) :
    (tableNameOf topic ∉ validTables →
      query_historian hs db topic start endT skip count order now failConn
        = .ok ⟨[], []⟩)
    ∧ (alget hs.topicIdMap (strippedTopic topic) = none →
      query_historian hs db topic start endT skip count order now failConn
        = .ok ⟨[], []⟩) := by
  constructor
  · intro h
    unfold query_historian
    rw [if_neg h]
  · intro h
    unfold query_historian
    by_cases hv : tableNameOf topic ∈ validTables
    · rw [if_pos hv, h]
    · rw [if_neg hv]

/-- Witness for C10 at the spec's concrete scenario `topic="bogus/x"` and
at an unregistered device topic. -/
theorem c10_invalid_topic_empty_result_witness :
    (tableNameOf "bogus/x" ∉ validTables
      ∧ query_historian freshState emptyDB "bogus/x" none none 0 (some 20)
          "FIRST_TO_LAST" "8" false = .ok ⟨[], []⟩)
    ∧ (alget (freshState).topicIdMap (strippedTopic "device/nobody") = none
      ∧ query_historian freshState emptyDB "device/nobody" none none 0 (some 20)
          "FIRST_TO_LAST" "8" false = .ok ⟨[], []⟩) :=
  ⟨⟨by decide,
    (c10_invalid_topic_empty_result freshState emptyDB "bogus/x" none none 0
      (some 20) "FIRST_TO_LAST" "8" false).1 (by decide)⟩,
   ⟨by decide,
    (c10_invalid_topic_empty_result freshState emptyDB "device/nobody" none none 0
      (some 20) "FIRST_TO_LAST" "8" false).2 (by decide)⟩⟩
